import Mathlib

/-!
Verification of the ReAct agent loop (react_agent.py, agent_state.py, tools.py,
gemini_client.py) as a shallow embedding.

Modelling conventions:
* Python/JSON values that flow through the loop (tool results, parsed model
  responses, intermediate results) are embedded as `JVal`.
* Python dicts are insertion-ordered association lists (`JDict`); assignment
  `d[k] = v` replaces the value in place when `k` is present, else appends.
* External collaborators (the Gemini reasoning call, the SerpAPI-backed tools,
  the keyword-triggered tool calls inside `_advanced`, and the final-response
  model call) are supplied by an `Env`; the loop's control flow around them is
  translated from the source.
* Wall-clock data (`timestamp`, `start_time`, `execution_time`) is abstracted:
  tool models take timestamps as parameters, and `execution_time` fields are
  omitted because no claim mentions them.  The float `compression_ratio` field
  of `summarize_action`'s record is likewise omitted (floating point); no other
  field of any record is dropped.
-/

/-- Embedded Python/JSON value as it flows through the agent. -/
inductive JVal where
  | vNull : JVal
  | vBool : Bool → JVal
  | vInt : Int → JVal
  | vStr : String → JVal
  | vList : List JVal → JVal
  | vObj : List (String × JVal) → JVal

/-- A Python dict with string keys, in insertion order. -/
abbrev JDict := List (String × JVal)

/-- Python truthiness of an embedded value (`bool(v)`). -/
def truthy : JVal → Bool
  | .vNull => false
  | .vBool b => b
  | .vInt n => n != 0
  | .vStr s => s != ""
  | .vList xs => !xs.isEmpty
  | .vObj fs => !fs.isEmpty

/-- Dict lookup, `d.get(k)`. -/
def dictGet? (k : String) : JDict → Option JVal
  | [] => none
  | (k', v) :: rest => if k' = k then some v else dictGet? k rest

/-- Dict assignment `d[k] = v`: replaces in place, else appends (insertion order). -/
def dictSet (d : JDict) (k : String) (v : JVal) : JDict :=
  match d with
  | [] => [(k, v)]
  | (k', v') :: rest => if k' = k then (k, v) :: rest else (k', v') :: dictSet rest k v

/-- Lookup with default on an object value, `v.get(k, dflt)`; only ever applied
to objects in the translated code paths. -/
def jGetD (v : JVal) (k : String) (dflt : JVal) : JVal :=
  match v with
  | .vObj fs => (dictGet? k fs).getD dflt
  | _ => dflt

/-- Crude `str()` rendering used only inside log-style message strings that no
claim inspects (braces written as escapes). -/
def jDisplay : JVal → String
  | .vNull => "None"
  | .vBool true => "True"
  | .vBool false => "False"
  | .vInt n => toString n
  | .vStr s => s
  | .vList _ => "[...]"
  | .vObj _ => "\x7b...\x7d"

/-- JSON string escaping as in `json.dumps` (quotes, backslashes, common
control characters). -/
def jsonEscape (s : String) : String :=
  s.toList.foldl (fun acc c =>
    if c = '"' then acc ++ "\\\""
    else if c = '\\' then acc ++ "\\\\"
    else if c = '\n' then acc ++ "\\n"
    else if c = '\t' then acc ++ "\\t"
    else if c = '\r' then acc ++ "\\r"
    else acc.push c) ""

/-- Indentation for `json.dumps(..., indent=2)`. -/
def jsonSpaces (n : Nat) : String := String.mk (List.replicate n ' ')

mutual

/-- Rendering of `json.dumps(v, ensure_ascii=False, indent=2)` at an
indentation level. -/
def jsonDumpsAux (ind : Nat) : JVal → String
  | .vNull => "null"
  | .vBool true => "true"
  | .vBool false => "false"
  | .vInt n => toString n
  | .vStr s => "\"" ++ jsonEscape s ++ "\""
  | .vList [] => "[]"
  | .vList (x :: xs) =>
      "[\n" ++ String.intercalate ",\n" (jsonDumpsList (ind + 2) (x :: xs)) ++
        "\n" ++ jsonSpaces ind ++ "]"
  | .vObj [] => "\x7b\x7d"
  | .vObj (f :: fs) =>
      "\x7b\n" ++ String.intercalate ",\n" (jsonDumpsFields (ind + 2) (f :: fs)) ++
        "\n" ++ jsonSpaces ind ++ "\x7d"

/-- Renders the elements of a JSON list, each on its own indented line. -/
def jsonDumpsList (ind : Nat) : List JVal → List String
  | [] => []
  | v :: rest => (jsonSpaces ind ++ jsonDumpsAux ind v) :: jsonDumpsList ind rest

/-- Renders the fields of a JSON object, each on its own indented line. -/
def jsonDumpsFields (ind : Nat) : List (String × JVal) → List String
  | [] => []
  | (k, v) :: rest =>
      (jsonSpaces ind ++ "\"" ++ jsonEscape k ++ "\": " ++ jsonDumpsAux ind v) ::
        jsonDumpsFields ind rest

end

/-- Top-level `json.dumps(v, ensure_ascii=False, indent=2)`. -/
def jsonDumps (v : JVal) : String := jsonDumpsAux 0 v

/-- Occurrence test for a character-list pattern at any position of a list
(Python's `pat in s` on strings). -/
def containsSubAux (p : List Char) : List Char → Bool
  | [] => p.isEmpty
  | c :: rest => List.isPrefixOf p (c :: rest) || containsSubAux p rest

/-- Python substring containment `pat in s`. -/
def containsSub (s pat : String) : Bool := containsSubAux pat.toList s.toList

/-- Python `str.lower()` character by character.  `Char.toLower` only lowers
ASCII letters; the keyword literals it is compared against are already
lowercase and every input considered here is ASCII. -/
def pyLower (s : String) : String := String.mk (s.toList.map Char.toLower)

/-- Python `str.strip()`: removes leading and trailing whitespace. -/
def pyStrip (s : String) : String :=
  String.mk (((s.toList.dropWhile Char.isWhitespace).reverse.dropWhile Char.isWhitespace).reverse)

/-- Python `str.split(sep)` for a one-character separator: splits at every
occurrence, keeping empty pieces (the only separator used is `'.'`). -/
def pySplitChar (sep : Char) : List Char → List (List Char)
  | [] => [[]]
  | c :: rest =>
      let r := pySplitChar sep rest
      if c = sep then [] :: r
      else
        match r with
        | [] => [[c]]
        | h :: t => (c :: h) :: t

/-!
## Tool models (tools.py)

`search_action` and `extract_weather_data` call SerpAPI over the network and
are environment-supplied in the loop model.  The pure tools below are
translated directly from tools.py; the wall-clock `timestamp` each record
carries is passed in as a parameter.
-/

/-- Tool `do_nothing` (tools.py lines 151-160): returns a constant success
record and touches no state. -/
def do_nothing (timestamp : String) : JVal :=
  .vObj [("success", .vBool true), ("action", .vStr "do_nothing"),
         ("message", .vStr "No action performed"), ("timestamp", .vStr timestamp)]

/-- Python slicing `s[:n]`: the first `n` code points. -/
def pySlice (n : Nat) (s : String) : String := String.mk (s.toList.take n)

/-- Python `text[:200] + "..." if len(text) > 200 else text` used for the
`original_text` field of summarize records. -/
def pyTrunc (n : Nat) (s : String) : String :=
  if s.length > n then pySlice n s ++ "..." else s

/-- Tool `summarize_action` (tools.py lines 162-207): extractive summary by
sentence splitting; the float `compression_ratio` field is omitted (see header
note), every other field of the returned record is kept. -/
def summarize_action (text : String) (max_length : Nat) (timestamp : String) : JVal :=
  if text = "" ∨ ((pyStrip text).length = 0) then
    .vObj [("success", .vBool false), ("error", .vStr "Empty text provided"),
           ("original_length", .vInt 0), ("summary", .vStr ""),
           ("timestamp", .vStr timestamp)]
  else
    let sentences := ((pySplitChar '.' text.toList).map String.mk).filterMap (fun s =>
      let t := pyStrip s
      if t = "" then none else some t)
    let summary :=
      if sentences.length ≤ 3 then text
      else String.intercalate ". " (sentences.take 2 ++ sentences.drop (sentences.length - 1)) ++ "."
    let summary := if summary.length > max_length then pySlice max_length summary ++ "..." else summary
    .vObj [("success", .vBool true), ("original_text", .vStr (pyTrunc 200 text)),
           ("summary", .vStr summary), ("original_length", .vInt text.length),
           ("summary_length", .vInt summary.length), ("timestamp", .vStr timestamp)]

/-- Truncation applied to each source snippet in `answer_question`
(tools.py line 285): first 100 characters plus an ellipsis when longer. -/
def truncSnippet (s : String) : String :=
  if s.length > 100 then pySlice 100 s ++ "..." else s

/-- The per-result processing of the `answer_question` loop over the first five
search results (tools.py lines 279-286).  Skips results whose `snippet` is
missing or falsy; collects `(fields, snippet)` for string snippets; returns
`none` when an element is not a dict or a truthy snippet is not a string
(in Python those raise inside the loop and the call falls into the generic
`except` branch). -/
def extractPicked : List JVal → Option (List (JDict × String))
  | [] => some []
  | .vObj fs :: rest =>
      (match dictGet? "snippet" fs with
       | some v =>
           if truthy v then
             match v with
             | .vStr s => (extractPicked rest).map (fun l => (fs, s) :: l)
             | _ => none
           else extractPicked rest
       | none => extractPicked rest)
  | _ :: _ => none

/-- One source entry built from a picked search result (tools.py lines 282-286):
`title` and `link` defaulted, snippet truncated. -/
def mkSource (p : JDict × String) : JVal :=
  .vObj [("title", (dictGet? "title" p.1).getD (.vStr "Unknown")),
         ("link", (dictGet? "link" p.1).getD (.vStr "")),
         ("snippet", .vStr (truncSnippet p.2))]

/-- Tool `answer_question` (tools.py lines 260-320).  The two `except`-branch
records carry the raised message as `error`; the model uses a fixed text where
Python would use `str(e)` (no claim reads the error text). -/
def answer_question (question : String) (search_results : List JVal)
    (current_date : String) (timestamp : String) : JVal :=
  if search_results.isEmpty then
    .vObj [("success", .vBool false), ("error", .vStr "No search results provided"),
           ("question", .vStr question),
           ("answer", .vStr "Không tìm thấy thông tin liên quan đến câu hỏi của bạn."),
           ("sources", .vList []), ("timestamp", .vStr timestamp)]
  else
    match extractPicked (search_results.take 5) with
    | none =>
        .vObj [("success", .vBool false), ("error", .vStr "type error while reading search results"),
               ("question", .vStr question),
               ("answer", .vStr "Đã xảy ra lỗi khi tạo câu trả lời."),
               ("sources", .vList []), ("timestamp", .vStr timestamp)]
    | some picked =>
        let relevant_info := picked.map (fun p => p.2)
        let sources := picked.map mkSource
        let combined_info := String.intercalate " " relevant_info
        let answer :=
          if (pyStrip combined_info).length = 0 then
            "Không tìm thấy thông tin chi tiết để trả lời câu hỏi này."
          else
            let sr := summarize_action combined_info 300 timestamp
            if truthy (jGetD sr "success" (.vBool false)) then
              "Dựa trên thông tin tìm kiếm được (cập nhật " ++ current_date ++ "): " ++
                jDisplay (jGetD sr "summary" (.vStr ""))
            else "Dựa trên thông tin tìm kiếm được: " ++ pySlice 300 combined_info ++ "..."
        .vObj [("success", .vBool true), ("question", .vStr question),
               ("answer", .vStr answer), ("sources", .vList sources),
               ("total_sources", .vInt sources.length),
               ("current_date", .vStr current_date), ("timestamp", .vStr timestamp)]

/-!
## State container (agent_state.py)
-/

/-- One history entry (agent_state.py `add_to_history`): stamped with the
current iteration; the wall-clock timestamp field is abstracted away. -/
structure HistStep where
  iteration : Nat
  type : String
  content : JVal
  metadata : JDict

/-- The mutable agent state (dataclass `AgentState`); `start_time` is
abstracted (wall clock).  `final_answer` and `current_thought` are `JVal`
because the loop assigns raw parsed-JSON fields to them. -/
structure AgentState where
  iteration : Nat
  max_iterations : Nat
  user_input : String
  history : List HistStep
  current_thought : JVal
  current_action : Option JVal
  current_observation : String
  intermediate_results : JDict
  final_answer : JVal
  finished : Bool
  status : String
  error : Option String

/-- Field defaults of the `AgentState` dataclass. -/
def initialState : AgentState :=
  { iteration := 0, max_iterations := 10, user_input := "", history := [],
    current_thought := .vStr "", current_action := none, current_observation := "",
    intermediate_results := [], final_answer := .vStr "", finished := false,
    status := "initialized", error := none }

/-- `AgentState.add_to_history` (agent_state.py lines 49-60): appends a step
stamped with the current iteration. -/
def AgentState.add_to_history (s : AgentState) (step_type : String) (content : JVal)
    (metadata : JDict) : AgentState :=
  { s with history := s.history ++
      [{ iteration := s.iteration, type := step_type, content := content, metadata := metadata }] }

/-- `AgentState.is_max_iterations_reached` (agent_state.py lines 76-80). -/
def AgentState.is_max_iterations_reached (s : AgentState) : Bool :=
  decide (s.iteration ≥ s.max_iterations)

/-- The summary view `AgentState.get_summary` (agent_state.py lines 104-117),
minus the wall-clock `execution_time` entry. -/
structure Summary where
  user_input : String
  total_iterations : Nat
  final_answer : JVal
  status : String
  finished : Bool
  error : Option String
  total_steps : Nat

/-- Builds the summary record from a state. -/
def AgentState.get_summary (s : AgentState) : Summary :=
  { user_input := s.user_input, total_iterations := s.iteration,
    final_answer := s.final_answer, status := s.status, finished := s.finished,
    error := s.error, total_steps := s.history.length }

/-!
## External collaborators (gemini_client.py, network tools)
-/

/-- Result of invoking a dispatched tool function: Python may raise (caught by
`process_tool_calls`) or return a value. -/
inductive ExecResult where
  | raised : String → ExecResult
  | returned : JVal → ExecResult

/-- The environment of external collaborators for one run.  Each is indexed by
the iteration that invokes it, so one `Env` captures one deterministic trace of
the nondeterministic collaborators:
* `oracle n`: the `generate_reasoning` outcome of the reasoning call made in
  pass `n` (`Except.error` = the client's failure record, `Except.ok v` = the
  parsed JSON decision);
* `exec n name params`: outcome of `function_mapping[name](**params)`;
* `advWeather n loc` / `advSearch n q` / `advSummary n text`: the records
  produced by the tool calls inside `_advanced`;
* `rewriteModel`: the model call inside `generate_final_response` — `ok` is
  `response.text`, `error` means that call raised. -/
structure Env where
  oracle : Nat → Except String JVal
  exec : Nat → String → JVal → ExecResult
  advWeather : Nat → String → JVal
  advSearch : Nat → String → JVal
  advSummary : Nat → JVal → JVal
  rewriteModel : Except String String

/-- Outcome dict of `ReActAgent.reasoning_step` (react_agent.py lines 35-95). -/
structure ReasoningOut where
  success : Bool
  error : Option String
  thought : JVal
  action : JVal
  should_continue : JVal
  final_answer : JVal

/-- `ReActAgent.reasoning_step` (react_agent.py lines 35-95): sets status
`thinking`, consults the reasoning oracle, extracts the decision fields with
their `.get` defaults and appends the thought to history.  A non-object parsed
response makes the `.get` calls raise `AttributeError`, which the function's
own `except` turns into a failure with status `error` (lines 84-95).  On
oracle failure the returned dict carries no `final_answer` key; the field is
never read on that path, so it is modelled as the empty string. -/
def reasoning_step (env : Env) (s : AgentState) : AgentState × ReasoningOut :=
  let s := { s with status := "thinking" }
  match env.oracle s.iteration with
  | .error e =>
      (s, { success := false, error := some e,
            thought := .vStr "Không thể tạo suy luận", action := .vNull,
            should_continue := .vBool false, final_answer := .vStr "" })
  | .ok v =>
      match v with
      | .vObj fs =>
          let thought := (dictGet? "thought" fs).getD (.vStr "Đang suy nghĩ...")
          let action := (dictGet? "action" fs).getD .vNull
          let should_continue := (dictGet? "should_continue" fs).getD (.vBool true)
          let final_answer := (dictGet? "final_answer" fs).getD (.vStr "")
          let s := { s with current_thought := thought }
          let s := s.add_to_history "thought" thought []
          (s, { success := true, error := none, thought := thought, action := action,
                should_continue := should_continue, final_answer := final_answer })
      | _ =>
          let s := { s with status := "error", error := some "AttributeError: value has no attribute get" }
          (s, { success := false, error := some "AttributeError: value has no attribute get",
                thought := .vStr "Đã xảy ra lỗi trong quá trình suy luận", action := .vNull,
                should_continue := .vBool false, final_answer := .vStr "" })

/-- The five dispatchable action names (`ReActAgent.function_mapping`). -/
def knownTools : List String :=
  ["search_action", "extract_weather_data", "do_nothing", "summarize_action", "answer_question"]

/-- Name lookup in the fixed dispatch table: only a string equal to one of the
five keys dispatches.  (A non-string hashable name fails the `in` test the
same way; an unhashable name raises and is caught by the same `except`,
producing a structured failure with a different message — no claim reads the
message.) -/
def toolNameOf : JVal → Option String
  | .vStr s => if knownTools.contains s then some s else none
  | _ => none

/-- Outcome dict of `ReActAgent.process_tool_calls` (react_agent.py 97-138). -/
structure ToolCallOut where
  success : Bool
  result : Option JVal
  error : Option String
  action_taken : JVal
  action_params : Option JVal

/-- `ReActAgent.process_tool_calls` (react_agent.py lines 97-138): falsy action
means "no action"; an unknown name, a raising tool, or non-mapping parameters
yield a structured failure.  A truthy non-object action makes both the `.get`
and the `except` handler's own `.get` raise, so the exception propagates to
the caller (`Except.error`). -/
def process_tool_calls (env : Env) (iter : Nat) (r : ReasoningOut) : Except String ToolCallOut :=
  if truthy r.action = false then
    .ok { success := true, result := some (.vStr "No action to perform"),
          error := none, action_taken := .vStr "none", action_params := none }
  else
    match r.action with
    | .vObj fs =>
        let nameV := (dictGet? "name" fs).getD (.vStr "")
        let params := (dictGet? "parameters" fs).getD (.vObj [])
        match toolNameOf nameV with
        | none =>
            .ok { success := false, result := none,
                  error := some ("Unknown action: " ++ jDisplay nameV),
                  action_taken := nameV, action_params := none }
        | some tool =>
            match params with
            | .vObj _ =>
                match env.exec iter tool params with
                | .raised e =>
                    .ok { success := false, result := none, error := some e,
                          action_taken := (dictGet? "name" fs).getD (.vStr "unknown"),
                          action_params := none }
                | .returned v =>
                    .ok { success := true, result := some v, error := none,
                          action_taken := nameV, action_params := some params }
            | _ =>
                .ok { success := false, result := none,
                      error := some "TypeError: argument after ** must be a mapping",
                      action_taken := (dictGet? "name" fs).getD (.vStr "unknown"),
                      action_params := none }
    | _ => .error "AttributeError: value has no attribute get"

/-!
## Advanced processing (`ReActAgent._advanced`, react_agent.py lines 140-209)

The three location regexes have the shape
`LITERAL (?:ALT1 |ALT2 |ALT3 )?([^?,.]+)`; `re.search` finds the leftmost
start where the literal prefix matches and some choice of the optional group
lets the capture take at least one character outside `? , .`.
-/

/-- Characters excluded by the capture class `[^?,.]`. -/
def notPunct (c : Char) : Bool := c ≠ '?' && c ≠ ',' && c ≠ '.'

/-- Greedy capture `([^?,.]+)`: the maximal nonempty prefix outside the class. -/
def tryCapture (rest : List Char) : Option (List Char) :=
  let cap := rest.takeWhile notPunct
  if cap.isEmpty then none else some cap

/-- Matches one pattern at a fixed position: literal prefix, then the optional
alternatives in regex order (falling back to skipping the optional group),
then the capture. -/
def matchPatternAt (lit : List Char) (alts : List (List Char)) (cs : List Char) :
    Option (List Char) :=
  if List.isPrefixOf lit cs then
    let rest := cs.drop lit.length
    ((alts.filterMap (fun a =>
        if List.isPrefixOf a rest then tryCapture (rest.drop a.length) else none)).head?)
      <|> tryCapture rest
  else none

/-- `re.search`: tries every start position left to right. -/
def searchPattern (lit : List Char) (alts : List (List Char)) : List Char → Option (List Char)
  | [] => matchPatternAt lit alts []
  | c :: cs => matchPatternAt lit alts (c :: cs) <|> searchPattern lit alts cs

/-- The location extraction of `_advanced` (react_agent.py lines 165-177): the
three patterns are tried in order, the first `re.search` hit is stripped, and
an all-whitespace capture leaves `location` falsy (`none` here). -/
def findLocation (lo : String) : Option String :=
  let cs := lo.toList
  let hit :=
    (searchPattern "thời tiết ".toList ["ở ".toList, "tại ".toList, "của ".toList] cs) <|>
    (searchPattern "weather ".toList ["in ".toList, "at ".toList, "of ".toList] cs) <|>
    (searchPattern "nhiệt độ ".toList ["ở ".toList, "tại ".toList, "của ".toList] cs)
  match hit with
  | none => none
  | some cap =>
      let loc := pyStrip (String.mk cap)
      if loc = "" then none else some loc

/-- Result dict of `_advanced`. -/
structure AdvOut where
  success : Bool
  type : String
  result : JVal

/-- `ReActAgent._advanced` (react_agent.py lines 140-209): keyword-triggered
side path.  The summarize branch fires only when a summary keyword matches and
`"text"` is a key of the intermediate results, the weather branch only when a
weather keyword matches and a location is extracted; otherwise control falls
through to the search branch and finally to `no_advanced_processing`.  The
tools it invokes never raise (each catches internally), so the `except` branch
of `_advanced` is unreachable and `success` is always true. -/
def advancedStep (env : Env) (iter : Nat) (user_input : String) (ir : JDict) : AdvOut :=
  let lo := pyLower user_input
  if (containsSub lo "tóm tắt" || containsSub lo "tổng hợp" || containsSub lo "summary")
      && (dictGet? "text" ir).isSome then
    { success := true, type := "advanced_summary",
      result := env.advSummary iter ((dictGet? "text" ir).getD .vNull) }
  else
    let searchBranch : AdvOut :=
      if containsSub lo "tìm kiếm" || containsSub lo "search" || containsSub lo "tìm hiểu" then
        { success := true, type := "enhanced_search", result := env.advSearch iter user_input }
      else
        { success := true, type := "no_advanced_processing",
          result := .vStr "No advanced processing needed" }
    if containsSub lo "thời tiết" || containsSub lo "weather" || containsSub lo "nhiệt độ" then
      match findLocation lo with
      | some loc =>
          { success := true, type := "weather_extraction", result := env.advWeather iter loc }
      | none => searchBranch
    else searchBranch

/-!
## Loop driver (`ReActAgent.react_agent`, react_agent.py lines 211-354)
-/

/-- The observation text built at react_agent.py lines 269-275: success/failure
note for dict results, stringification otherwise. -/
def mkObservation (tool_result : JVal) : String :=
  match tool_result with
  | .vObj fs =>
      if truthy ((dictGet? "success" fs).getD (.vBool true)) then
        "Action executed successfully. Result: " ++ pySlice 300 (jsonDumps tool_result) ++ "..."
      else "Action failed: " ++ jDisplay ((dictGet? "error" fs).getD (.vStr "Unknown error"))
  | _ => "Action result: " ++ pySlice 300 (jDisplay tool_result) ++ "..."

/-- Equality test against the literal `"answer_question"` used at
react_agent.py line 282. -/
def isAnswerName : JVal → Bool
  | .vStr s => s == "answer_question"
  | _ => false

/-- How one execution of the `while` body ends: fall through to the condition
re-check, `break`, or an exception propagating to the top-level handler. -/
inductive PassOut where
  | proceed : AgentState → PassOut
  | brk : AgentState → PassOut
  | raised : AgentState → String → PassOut

/-- The state carried by a pass outcome. -/
def PassOut.state : PassOut → AgentState
  | .proceed s => s
  | .brk s => s
  | .raised s _ => s

/-- The action phase of one pass (react_agent.py lines 246-296), entered after
a successful reasoning step that decided to continue.  A truthy action is
recorded, described (line 253 indexes `['name']` and `['parameters']` raw, so
a non-dict action or one missing either key raises), dispatched, its result
stored under `action_<iteration>` and observed; the `answer_question` special
case (lines 282-290) sets the final answer and finishes in both branches of
its success test.  A failed dispatch appends a failure observation. -/
def actionPhase (env : Env) (s : AgentState) (r : ReasoningOut) :
    Except (AgentState × String) AgentState :=
  if truthy r.action then
    let s := { s with status := "acting", current_action := some r.action }
    match r.action with
    | .vObj fs =>
        match dictGet? "name" fs, dictGet? "parameters" fs with
        | some nameV, some paramsV =>
            let desc := "Action: " ++ jDisplay nameV ++ " with params: " ++ jDisplay paramsV
            let s := s.add_to_history "action" (.vStr desc) [("action", r.action)]
            match process_tool_calls env s.iteration r with
            | .error e => .error (s, e)
            | .ok ar =>
                if ar.success then
                  let tool_result := ar.result.getD .vNull
                  let newIR := dictSet s.intermediate_results ("action_" ++ toString s.iteration) tool_result
                  let s := { s with intermediate_results := newIR }
                  let s := { s with status := "observing" }
                  let observation := mkObservation tool_result
                  let s := { s with current_observation := observation }
                  let s := s.add_to_history "observation" (.vStr observation) []
                  if isAnswerName nameV then
                    match tool_result with
                    | .vObj tfs =>
                        if truthy ((dictGet? "success" tfs).getD (.vBool false)) then
                          .ok { s with
                            final_answer := (dictGet? "answer" tfs).getD
                              (.vStr "Không thể tạo câu trả lời."),
                            finished := true, status := "finished" }
                        else
                          .ok { s with
                            final_answer := .vStr "Không thể tìm thấy thông tin để trả lời câu hỏi.",
                            finished := true, status := "finished" }
                    | _ => .error (s, "AttributeError: value has no attribute get")
                  else .ok s
                else
                  let observation := "Action failed: " ++ (ar.error.getD "")
                  let s := { s with current_observation := observation }
                  let s := s.add_to_history "observation" (.vStr observation) []
                  .ok s
        | _, _ => .error (s, "KeyError while describing the action")
    | _ => .error (s, "TypeError: value is not subscriptable")
  else .ok s

/-- One execution of the `while` body after the iteration increment
(react_agent.py lines 225-301): reasoning, the two `break` checks, the action
phase and the advanced-processing injection. -/
def passCore (env : Env) (s : AgentState) : PassOut :=
  let (s, r) := reasoning_step env s
  if r.success = false then
    .brk { s with status := "error", error := r.error }
  else if truthy r.should_continue = false then
    .brk { s with final_answer := r.final_answer, finished := true, status := "finished" }
  else
    match actionPhase env s r with
    | .error (s, e) => .raised s e
    | .ok s =>
        let adv := advancedStep env s.iteration s.user_input s.intermediate_results
        let s :=
          if adv.success && adv.type != "no_advanced_processing" then
            { s with intermediate_results := dictSet s.intermediate_results "advanced" adv.result }
          else s
        .proceed s

/-- One full pass: the `state.iteration += 1` of line 224 followed by the body. -/
def runPass (env : Env) (s : AgentState) : PassOut :=
  passCore env { s with iteration := s.iteration + 1 }

/-- Projection of the state out of the action phase's outcome. -/
def exState : Except (AgentState × String) AgentState → AgentState
  | .ok s => s
  | .error p => p.1

/-- The reasoning step never touches the iteration counter or the bound. -/
theorem reasoning_step_counters (env : Env) (s : AgentState) :
    ((reasoning_step env s).1).iteration = s.iteration ∧
      ((reasoning_step env s).1).max_iterations = s.max_iterations := by
  unfold reasoning_step
  cases h : env.oracle s.iteration with
  | error e => simp [h]
  | ok v => cases v <;> simp [h, AgentState.add_to_history]

/-- The action phase never touches the iteration counter or the bound. -/
theorem actionPhase_counters (env : Env) (s : AgentState) (r : ReasoningOut) :
    (exState (actionPhase env s r)).iteration = s.iteration ∧
      (exState (actionPhase env s r)).max_iterations = s.max_iterations := by
  unfold actionPhase
  dsimp only
  repeat' split
  all_goals simp_all [exState, AgentState.add_to_history]

/-- One body execution leaves `iteration` and `max_iterations` unchanged. -/
theorem passCore_counters (env : Env) (s : AgentState) :
    ((passCore env s).state).iteration = s.iteration ∧
      ((passCore env s).state).max_iterations = s.max_iterations := by
  have hr := reasoning_step_counters env s
  unfold passCore
  dsimp only
  cases hrs : reasoning_step env s with
  | mk s1 r =>
    rw [hrs] at hr
    simp only at hr
    have ha := actionPhase_counters env s1 r
    repeat' split
    all_goals simp_all [PassOut.state, exState]

/-- One full pass increments `iteration` by exactly one and keeps the bound. -/
theorem runPass_counters (env : Env) (s : AgentState) :
    ((runPass env s).state).iteration = s.iteration + 1 ∧
      ((runPass env s).state).max_iterations = s.max_iterations := by
  unfold runPass
  have h := passCore_counters env { s with iteration := s.iteration + 1 }
  simpa using h

/-- How the `while` loop ends: normally (condition false or `break`) or with an
exception propagating to the top-level `except` (react_agent.py line 340). -/
inductive LoopOut where
  | normal : AgentState → LoopOut
  | raised : AgentState → String → LoopOut

/-- The state carried by a loop outcome. -/
def LoopOut.state : LoopOut → AgentState
  | .normal s => s
  | .raised s _ => s

/-- Fuel-indexed reading of the `while` loop body.  `runLoop` below supplies
`max_iterations - iteration` as fuel, which is always enough: fuel 0 can only
be reached when `is_max_iterations_reached` holds, where the loop condition
exits with the same state — `runLoop_eq` proves the while-loop equation. -/
def runLoopFuel (env : Env) : Nat → AgentState → LoopOut
  | 0, s => .normal s
  | Nat.succ n, s =>
      if s.finished || s.is_max_iterations_reached then .normal s
      else
        match runPass env s with
        | .proceed s' => runLoopFuel env n s'
        | .brk s' => .normal s'
        | .raised s' e => .raised s' e

/-- The `while not state.finished and not state.is_max_iterations_reached()`
loop (react_agent.py lines 223-301). -/
def runLoop (env : Env) (s : AgentState) : LoopOut :=
  runLoopFuel env (s.max_iterations - s.iteration) s

/-- The loop satisfies the defining equation of the source `while` loop:
check the condition, run one pass, continue on fall-through, stop on `break`,
propagate exceptions. -/
theorem runLoop_eq (env : Env) (s : AgentState) :
    runLoop env s =
      if s.finished || s.is_max_iterations_reached then .normal s
      else
        match runPass env s with
        | .proceed s' => runLoop env s'
        | .brk s' => .normal s'
        | .raised s' e => .raised s' e := by
  unfold runLoop
  cases hf : s.max_iterations - s.iteration with
  | zero =>
      have hmax : s.is_max_iterations_reached = true := by
        simp only [AgentState.is_max_iterations_reached, ge_iff_le, decide_eq_true_eq]
        omega
      simp [runLoopFuel, hmax]
  | succ n =>
      simp only [runLoopFuel]
      by_cases hc : (s.finished || s.is_max_iterations_reached) = true
      · simp [hc]
      · simp only [hc, Bool.false_eq_true, if_false]
        have hp := runPass_counters env s
        cases hps : runPass env s with
        | proceed s' =>
            rw [hps] at hp
            simp only [PassOut.state] at hp
            have hn : s'.max_iterations - s'.iteration = n := by
              simp only [Bool.or_eq_true, not_or, Bool.not_eq_true,
                AgentState.is_max_iterations_reached, ge_iff_le, decide_eq_true_eq] at hc
              omega
            dsimp only
            rw [hn]
        | brk s' => rfl
        | raised s' e => rfl

/-- `GeminiClient.generate_final_response` (gemini_client.py lines 187-227):
one model call; any exception is caught internally and the draft answer is
returned unchanged.  (The history summary built for the prompt does not affect
the returned value and is absorbed into `Env.rewriteModel`.) -/
def generate_final_response (env : Env) (final_answer : JVal) : JVal :=
  match env.rewriteModel with
  | .error _ => final_answer
  | .ok text => .vStr (pyStrip text)

/-- The post-loop fix-up for runs that exhausted the bound without finishing
(react_agent.py lines 303-307). -/
def maxIterationsFixup (s : AgentState) : AgentState :=
  if s.is_max_iterations_reached && !s.finished then
    { s with status := "max_iterations_reached",
             final_answer := .vStr "Đã đạt tới số lần thử tối đa. Không thể hoàn thành yêu cầu.",
             finished := true }
  else s

/-- The final-response enhancement (react_agent.py lines 309-320): invoked only
when the final answer is truthy and the status is `finished`; a falsy enhanced
response is discarded. -/
def applyRewrite (env : Env) (s : AgentState) : AgentState :=
  if truthy s.final_answer && (s.status == "finished") then
    let enhanced := generate_final_response env s.final_answer
    if truthy enhanced then { s with final_answer := enhanced } else s
  else s

/-- The result record assembled at react_agent.py lines 322-333 (normal exit)
and lines 345-354 (top-level exception): the exception record carries an
`error` entry but no `final_answer` and no `intermediate_results` entry, the
normal record is the reverse; `execution_time` is abstracted (wall clock). -/
structure ResultRecord where
  success : Bool
  error : Option String
  user_input : String
  final_answer : Option JVal
  total_iterations : Nat
  status : String
  history : List HistStep
  intermediate_results : Option JDict
  summary : Summary

/-- The initial state of a run (react_agent.py lines 216-218). -/
def initialStateFor (user_input : String) : AgentState :=
  { initialState with user_input := user_input, status := "started" }

/-- The loop phase of a run on the given input. -/
def loopOutcome (env : Env) (user_input : String) : LoopOut :=
  runLoop env (initialStateFor user_input)

/-- The state after the loop, the max-iterations fix-up and the final-response
enhancement, for runs where no exception escaped the loop. -/
def finalState (env : Env) (user_input : String) : Option AgentState :=
  match loopOutcome env user_input with
  | .normal s => some (applyRewrite env (maxIterationsFixup s))
  | .raised _ _ => none

/-- The state after the loop and the fix-up but before the final-response
enhancement: its `final_answer` is the draft the rewriter receives. -/
def draftState (env : Env) (user_input : String) : Option AgentState :=
  match loopOutcome env user_input with
  | .normal s => some (maxIterationsFixup s)
  | .raised _ _ => none

/-- Number of `generate_final_response` invocations a run performs: the single
call site at react_agent.py line 312 runs at most once, after the loop. -/
def rewriterCalls (env : Env) (user_input : String) : Nat :=
  match loopOutcome env user_input with
  | .raised _ _ => 0
  | .normal s =>
      let s := maxIterationsFixup s
      if truthy s.final_answer && (s.status == "finished") then 1 else 0

/-- `ReActAgent.react_agent` (react_agent.py lines 211-354): the full run. -/
def react_agent (env : Env) (user_input : String) : ResultRecord :=
  match loopOutcome env user_input with
  | .raised s e =>
      let s := { s with status := "error", error := some e }
      { success := false, error := some e, user_input := user_input,
        final_answer := none, total_iterations := s.iteration, status := s.status,
        history := s.history, intermediate_results := none,
        summary := s.get_summary }
  | .normal s =>
      let s := applyRewrite env (maxIterationsFixup s)
      { success := true, error := none, user_input := user_input,
        final_answer := some s.final_answer, total_iterations := s.iteration,
        status := s.status, history := s.history,
        intermediate_results := some s.intermediate_results,
        summary := s.get_summary }

/-- The max-iterations fix-up does not change the iteration counter. -/
theorem maxIterationsFixup_iteration (s : AgentState) :
    (maxIterationsFixup s).iteration = s.iteration := by
  unfold maxIterationsFixup; split <;> rfl

/-- The final-response enhancement does not change the iteration counter. -/
theorem applyRewrite_iteration (env : Env) (s : AgentState) :
    (applyRewrite env s).iteration = s.iteration := by
  unfold applyRewrite; dsimp only
  repeat' split
  all_goals rfl

/-- Loop invariant: starting within the bound, every loop outcome's state stays
within the bound, and the bound itself is never modified. -/
theorem runLoopFuel_counters (env : Env) :
    ∀ (n : Nat) (s : AgentState), s.iteration ≤ s.max_iterations →
      ((runLoopFuel env n s).state).iteration ≤ s.max_iterations ∧
        ((runLoopFuel env n s).state).max_iterations = s.max_iterations := by
  intro n
  induction n with
  | zero =>
      intro s hbound
      simp [runLoopFuel, LoopOut.state, hbound]
  | succ n ih =>
      intro s hbound
      simp only [runLoopFuel]
      by_cases hc : (s.finished || s.is_max_iterations_reached) = true
      · simp [hc, LoopOut.state, hbound]
      · simp only [hc, if_false, Bool.false_eq_true]
        have hp := runPass_counters env s
        have hlt : s.iteration < s.max_iterations := by
          simp [AgentState.is_max_iterations_reached] at hc; omega
        split
        · rename_i s' heq
          rw [heq] at hp
          simp only [PassOut.state] at hp
          have h3 : s'.iteration ≤ s'.max_iterations := by omega
          have hrec := ih s' h3
          constructor
          · calc ((runLoopFuel env n s').state).iteration ≤ s'.max_iterations := hrec.1
              _ = s.max_iterations := hp.2
          · rw [hrec.2, hp.2]
        · rename_i s' heq
          rw [heq] at hp
          simp only [PassOut.state] at hp
          simp [LoopOut.state]; omega
        · rename_i s' e heq
          rw [heq] at hp
          simp only [PassOut.state] at hp
          simp [LoopOut.state]; omega

/-- The loop invariant instantiated at the driver's fuel. -/
theorem runLoop_counters (env : Env) (s : AgentState)
    (hbound : s.iteration ≤ s.max_iterations) :
    ((runLoop env s).state).iteration ≤ s.max_iterations ∧
      ((runLoop env s).state).max_iterations = s.max_iterations :=
  runLoopFuel_counters env (s.max_iterations - s.iteration) s hbound

/-- C1: in every run of the loop driver `react_agent`, the iteration count in
the final result record is at most the configured maximum (`max_iterations`,
default 10), and each pass increments the counter by exactly one; the loop
head re-checks `is_max_iterations_reached` before every pass. -/
theorem C1_iteration_bounded :
    (∀ (env : Env) (user_input : String),
        (react_agent env user_input).total_iterations ≤ 10) ∧
      (∀ (env : Env) (s : AgentState),
        ((runPass env s).state).iteration = s.iteration + 1) := by
  constructor
  · intro env u
    have hinit : (initialStateFor u).max_iterations = 10 := rfl
    have h := runLoop_counters env (initialStateFor u)
      (by simp [initialStateFor, initialState])
    unfold react_agent loopOutcome
    unfold loopOutcome at h
    cases hlo : runLoop env (initialStateFor u) with
    | normal s =>
        rw [hlo] at h
        simp only [LoopOut.state] at h
        simp only [hinit] at h
        simp [applyRewrite_iteration, maxIterationsFixup_iteration, h.1]
    | raised s e =>
        rw [hlo] at h
        simp only [LoopOut.state] at h
        simp only [hinit] at h
        simp [h.1]
  · intro env s
    exact (runPass_counters env s).1

/-- C2: every run whose loop phase ends still unfinished with the iteration
bound reached is reported with status `max_iterations_reached`, a summary
`finished` flag of true, and the canned apology as final answer. -/
theorem C2_max_iterations_terminal (env : Env) (user_input : String) (s : AgentState)
    (hlo : loopOutcome env user_input = .normal s)
    (hnf : s.finished = false)
    (hmax : s.is_max_iterations_reached = true) :
    (react_agent env user_input).status = "max_iterations_reached" ∧
      (react_agent env user_input).summary.finished = true ∧
      (react_agent env user_input).final_answer =
        some (.vStr "Đã đạt tới số lần thử tối đa. Không thể hoàn thành yêu cầu.") := by
  unfold react_agent
  rw [hlo]
  unfold maxIterationsFixup applyRewrite
  simp [hnf, hmax, AgentState.get_summary, truthy]

/-- Environment whose reasoning oracle always answers "continue, no action":
the loop exhausts its budget. -/
def envC2 : Env :=
  { oracle := fun _ => .ok (.vObj [("should_continue", .vBool true)]),
    exec := fun _ _ _ => .returned .vNull,
    advWeather := fun _ _ => .vNull, advSearch := fun _ _ => .vNull,
    advSummary := fun _ _ => .vNull, rewriteModel := .ok "" }

/-- Concrete run exercising `C2_max_iterations_terminal`. -/
theorem C2_max_iterations_terminal_witness :
    (LoopOut.state (loopOutcome envC2 "q")).finished = false ∧
      (LoopOut.state (loopOutcome envC2 "q")).is_max_iterations_reached = true ∧
      (react_agent envC2 "q").status = "max_iterations_reached" ∧
      (react_agent envC2 "q").summary.finished = true ∧
      (react_agent envC2 "q").final_answer =
        some (.vStr "Đã đạt tới số lần thử tối đa. Không thể hoàn thành yêu cầu.") := by
  have h := C2_max_iterations_terminal envC2 "q" (LoopOut.state (loopOutcome envC2 "q"))
    (by rfl) (by rfl) (by rfl)
  exact ⟨by rfl, by rfl, h.1, h.2.1, h.2.2⟩

/-- A pass whose reasoning-oracle call fails ends the loop with a `break`,
recording status `error` and the oracle's message (react_agent.py 231-234). -/
theorem passCore_oracle_error (env : Env) (s : AgentState) (e : String)
    (h : env.oracle s.iteration = .error e) :
    passCore env s = .brk { s with status := "error", error := some e } := by
  unfold passCore reasoning_step
  dsimp only
  rw [h]
  simp

/-- C4 amended: when the reasoning oracle fails on the first call, the run
ends after exactly one iteration with status `error` and the failure message
in the summary's `error` field, and no exception escapes — but the record's
top-level `success` flag is `true` (the normal-return path always sets it so);
only an exception reaching the top-level handler produces `success = false`. -/
theorem C4_oracle_failure_record (env : Env) (user_input : String) (e : String)
    (h : env.oracle 1 = .error e) :
    (react_agent env user_input).success = true ∧
      (react_agent env user_input).status = "error" ∧
      (react_agent env user_input).total_iterations = 1 ∧
      (react_agent env user_input).summary.error = some e := by
  have hpass : runPass env (initialStateFor user_input) =
      .brk { initialStateFor user_input with iteration := 1, status := "error", error := some e } := by
    unfold runPass
    exact passCore_oracle_error env { initialStateFor user_input with iteration := 1 } e h
  have hcond : ((initialStateFor user_input).finished ||
      (initialStateFor user_input).is_max_iterations_reached) = false := rfl
  unfold react_agent loopOutcome
  rw [runLoop_eq, hcond]
  simp only [Bool.false_eq_true, if_false]
  rw [hpass]
  unfold maxIterationsFixup applyRewrite
  simp [initialStateFor, initialState, AgentState.is_max_iterations_reached,
    AgentState.get_summary, truthy]

/-- Environment whose reasoning oracle fails on every call. -/
def envC4 : Env :=
  { oracle := fun _ => .error "API down",
    exec := fun _ _ _ => .returned .vNull,
    advWeather := fun _ _ => .vNull, advSearch := fun _ _ => .vNull,
    advSummary := fun _ _ => .vNull, rewriteModel := .ok "" }

/-- C4 counterexample: with an always-failing reasoning oracle the run does
end with status `error` after one iteration, but the result record's
`success` flag is `true`, not `false` as the claim states. -/
theorem C4_counterexample :
    (react_agent envC4 "hello").success = true ∧
      (react_agent envC4 "hello").status = "error" ∧
      (react_agent envC4 "hello").total_iterations = 1 :=
  ⟨rfl, rfl, rfl⟩

/-- Concrete run exercising `C4_oracle_failure_record`. -/
theorem C4_oracle_failure_record_witness :
    envC4.oracle 1 = .error "API down" ∧
      ((react_agent envC4 "hello").success = true ∧
        (react_agent envC4 "hello").status = "error" ∧
        (react_agent envC4 "hello").total_iterations = 1 ∧
        (react_agent envC4 "hello").summary.error = some "API down") :=
  ⟨rfl, C4_oracle_failure_record envC4 "hello" "API down" rfl⟩

/-- An object with at least one key is truthy. -/
theorem truthy_of_dictGet (k : String) (v : JVal) (fs : JDict)
    (h : dictGet? k fs = some v) : truthy (.vObj fs) = true := by
  cases fs with
  | nil => simp [dictGet?] at h
  | cons p rest => simp [truthy]

/-- C3 amended: when a pass's decision carries the `answer_question` action
(with the model asking to continue) and the dispatch succeeds with a dict
result, the loop finishes on that pass in BOTH branches of the result's
success test — the flag only chooses between the tool's answer field and a
canned not-found message; it does not decide whether the loop finishes. -/
theorem C3_answer_action_always_finishes (env : Env) (s : AgentState)
    (fs afs tfs params : JDict)
    (horacle : env.oracle (s.iteration + 1) = .ok (.vObj fs))
    (haction : dictGet? "action" fs = some (.vObj afs))
    (hname : dictGet? "name" afs = some (.vStr "answer_question"))
    (hparams : dictGet? "parameters" afs = some (.vObj params))
    (hsc : truthy ((dictGet? "should_continue" fs).getD (.vBool true)) = true)
    (hexec : env.exec (s.iteration + 1) "answer_question" (.vObj params) = .returned (.vObj tfs)) :
    ∃ s', runPass env s = .proceed s' ∧ s'.finished = true ∧ s'.status = "finished" ∧
      s'.final_answer =
        (if truthy ((dictGet? "success" tfs).getD (.vBool false)) = true then
          (dictGet? "answer" tfs).getD (.vStr "Không thể tạo câu trả lời.")
        else .vStr "Không thể tìm thấy thông tin để trả lời câu hỏi.") := by
  have htru : truthy (.vObj afs) = true := truthy_of_dictGet "name" _ afs hname
  unfold runPass passCore reasoning_step actionPhase process_tool_calls
  dsimp only
  rw [horacle]
  dsimp only
  simp only [AgentState.add_to_history, haction, hname, hparams, htru, Option.getD_some]
  simp [hsc, toolNameOf, knownTools, isAnswerName]
  simp only [hexec, Option.getD_some, if_true]
  by_cases hflag : truthy ((dictGet? "success" tfs).getD (JVal.vBool false)) = true
  · rw [if_pos hflag]
    dsimp only
    split
    · exact ⟨_, rfl, rfl, rfl, by simp [hflag]⟩
    · exact ⟨_, rfl, rfl, rfl, by simp [hflag]⟩
  · rw [if_neg hflag]
    dsimp only
    split
    · exact ⟨_, rfl, rfl, rfl, by simp [hflag]⟩
    · exact ⟨_, rfl, rfl, rfl, by simp [hflag]⟩

/-- Parameters the model supplies with the answer action in the C3 scenario. -/
def c3Params : JDict :=
  [("question", .vStr "q"), ("search_results", .vList []), ("current_date", .vStr "d")]

/-- The answer action object of the C3 scenario. -/
def c3Action : JDict :=
  [("name", .vStr "answer_question"), ("parameters", .vObj c3Params)]

/-- The parsed decision of the C3 scenario: answer action, should_continue
true. -/
def c3Decision : JDict :=
  [("action", .vObj c3Action), ("should_continue", .vBool true)]

/-- The failed structured result the answer tool returns in the C3 scenario. -/
def c3ToolResult : JDict :=
  [("success", .vBool false), ("error", .vStr "No search results provided")]

/-- Environment for the C3 scenario: the model always requests the answer
action with `should_continue = true`, and the tool reports failure. -/
def envC3 : Env :=
  { oracle := fun _ => .ok (.vObj c3Decision),
    exec := fun _ _ _ => .returned (.vObj c3ToolResult),
    advWeather := fun _ _ => .vNull, advSearch := fun _ _ => .vNull,
    advSummary := fun _ _ => .vNull, rewriteModel := .error "x" }

/-- C3 counterexample: the answer action's structured result has
`success = false` and the model said to continue, yet the run finishes on that
very pass (status `finished` after a single iteration) — so the loop does NOT
continue when the flag is false, contradicting the claim. -/
theorem C3_counterexample :
    (react_agent envC3 "q").total_iterations = 1 ∧
      (react_agent envC3 "q").status = "finished" ∧
      (react_agent envC3 "q").final_answer =
        some (.vStr "Không thể tìm thấy thông tin để trả lời câu hỏi.") :=
  ⟨rfl, rfl, rfl⟩

/-- Concrete pass exercising `C3_answer_action_always_finishes`. -/
theorem C3_answer_action_always_finishes_witness :
    ∃ s', runPass envC3 (initialStateFor "q") = .proceed s' ∧ s'.finished = true ∧
      s'.status = "finished" ∧
      s'.final_answer =
        (if truthy ((dictGet? "success" c3ToolResult).getD (.vBool false)) = true then
          (dictGet? "answer" c3ToolResult).getD (.vStr "Không thể tạo câu trả lời.")
        else .vStr "Không thể tìm thấy thông tin để trả lời câu hỏi.") :=
  C3_answer_action_always_finishes envC3 (initialStateFor "q")
    c3Decision c3Action c3ToolResult c3Params rfl rfl rfl rfl rfl rfl

/-- The observation entries of a history, in order. -/
def observationsOf (h : List HistStep) : List HistStep :=
  h.filter (fun st => st.type == "observation")

/-- C5: a decision whose action name is outside the five dispatchable names
never aborts the run: the dispatcher returns a structured failure (`Except.ok`
with `success = false` and an `Unknown action` error, not a propagating
exception), the pass appends exactly one failed-action observation, leaves
`finished` and `error` untouched, and falls through to the next loop
condition check. -/
theorem C5_unknown_action_not_fatal (env : Env) (s : AgentState)
    (fs afs : JDict) (n : String) (paramsV : JVal)
    (horacle : env.oracle (s.iteration + 1) = .ok (.vObj fs))
    (haction : dictGet? "action" fs = some (.vObj afs))
    (hname : dictGet? "name" afs = some (.vStr n))
    (hparams : dictGet? "parameters" afs = some paramsV)
    (hsc : truthy ((dictGet? "should_continue" fs).getD (.vBool true)) = true)
    (hunknown : knownTools.contains n = false) :
    (∀ r : ReasoningOut, r.action = .vObj afs →
      ∃ tc, process_tool_calls env (s.iteration + 1) r = .ok tc ∧ tc.success = false ∧
        tc.error = some ("Unknown action: " ++ n)) ∧
    ∃ s', runPass env s = .proceed s' ∧ s'.finished = s.finished ∧ s'.error = s.error ∧
      observationsOf s'.history = observationsOf s.history ++
        [{ iteration := s.iteration + 1, type := "observation",
           content := .vStr ("Action failed: Unknown action: " ++ n), metadata := [] }] := by
  have htru : truthy (.vObj afs) = true := truthy_of_dictGet "name" _ afs hname
  constructor
  · intro r hr
    unfold process_tool_calls toolNameOf
    rw [hr]
    simp only [htru, hname, Option.getD_some]
    rw [hunknown]
    simp [jDisplay]
  · unfold runPass passCore reasoning_step actionPhase process_tool_calls toolNameOf
    dsimp only
    rw [horacle]
    dsimp only
    simp only [AgentState.add_to_history, haction, hname, hparams, htru, Option.getD_some]
    simp only [hsc]
    rw [hunknown]
    simp [jDisplay]
    split
    · exact ⟨rfl, rfl, by
        simp [observationsOf, List.filter_append]
        rw [← String.append_assoc]
        rfl⟩
    · exact ⟨rfl, rfl, by
        simp [observationsOf, List.filter_append]
        rw [← String.append_assoc]
        rfl⟩

/-- The unknown action object of the C5 scenario. -/
def c5Action : JDict := [("name", .vStr "bogus_tool"), ("parameters", .vObj [])]

/-- The parsed decision of the C5 scenario. -/
def c5Decision : JDict := [("action", .vObj c5Action), ("should_continue", .vBool true)]

/-- Environment whose model keeps requesting an action outside the table. -/
def envC5 : Env :=
  { oracle := fun _ => .ok (.vObj c5Decision),
    exec := fun _ _ _ => .returned .vNull,
    advWeather := fun _ _ => .vNull, advSearch := fun _ _ => .vNull,
    advSummary := fun _ _ => .vNull, rewriteModel := .ok "" }

/-- Concrete pass exercising `C5_unknown_action_not_fatal`. -/
theorem C5_unknown_action_not_fatal_witness :
    (∀ r : ReasoningOut, r.action = .vObj c5Action →
      ∃ tc, process_tool_calls envC5 ((initialStateFor "hi").iteration + 1) r = .ok tc ∧
        tc.success = false ∧ tc.error = some ("Unknown action: " ++ "bogus_tool")) ∧
    ∃ s', runPass envC5 (initialStateFor "hi") = .proceed s' ∧
      s'.finished = (initialStateFor "hi").finished ∧
      s'.error = (initialStateFor "hi").error ∧
      observationsOf s'.history = observationsOf (initialStateFor "hi").history ++
        [{ iteration := (initialStateFor "hi").iteration + 1, type := "observation",
           content := .vStr ("Action failed: Unknown action: " ++ "bogus_tool"),
           metadata := [] }] :=
  C5_unknown_action_not_fatal envC5 (initialStateFor "hi") c5Decision c5Action "bogus_tool"
    (.vObj []) rfl rfl rfl rfl rfl rfl

/-- C6 amended: a pass that executes `do_nothing` does mutate the
intermediate-results mapping — the driver stores the tool's result under
`action_<iteration>` (react_agent.py lines 260-263) — but that is the only
change when the keyword side path stays idle, and the pass neither finishes
the loop nor touches the error field; the `do_nothing` function itself reads
no state and returns a constant record. -/
theorem C6_do_nothing_pass_adds_key (env : Env) (s : AgentState)
    (fs afs : JDict) (ts : String)
    (horacle : env.oracle (s.iteration + 1) = .ok (.vObj fs))
    (haction : dictGet? "action" fs = some (.vObj afs))
    (hname : dictGet? "name" afs = some (.vStr "do_nothing"))
    (hparams : dictGet? "parameters" afs = some (.vObj []))
    (hsc : truthy ((dictGet? "should_continue" fs).getD (.vBool true)) = true)
    (hexec : env.exec (s.iteration + 1) "do_nothing" (.vObj []) = .returned (do_nothing ts))
    (hadv : ∀ ir, (advancedStep env (s.iteration + 1) s.user_input ir).type =
      "no_advanced_processing") :
    ∃ s', runPass env s = .proceed s' ∧ s'.finished = s.finished ∧ s'.error = s.error ∧
      s'.intermediate_results =
        dictSet s.intermediate_results ("action_" ++ toString (s.iteration + 1))
          (do_nothing ts) := by
  have htru : truthy (.vObj afs) = true := truthy_of_dictGet "name" _ afs hname
  unfold runPass passCore reasoning_step actionPhase process_tool_calls
  dsimp only
  rw [horacle]
  dsimp only
  simp only [AgentState.add_to_history, haction, hname, hparams, htru, Option.getD_some]
  simp [hsc, toolNameOf, knownTools, isAnswerName]
  simp only [hexec, Option.getD_some]
  simp [hadv]

/-- The do-nothing action object of the C6 scenario. -/
def c6Action : JDict := [("name", .vStr "do_nothing"), ("parameters", .vObj [])]

/-- Environment of the C6 scenario: pass 1 requests `do_nothing` and asks to
continue, pass 2 stops. -/
def envC6 : Env :=
  { oracle := fun n =>
      if n = 1 then
        .ok (.vObj [("action", .vObj c6Action), ("should_continue", .vBool true)])
      else .ok (.vObj [("should_continue", .vBool false), ("final_answer", .vStr "done")]),
    exec := fun _ name _ => if name = "do_nothing" then .returned (do_nothing "t") else .raised "?",
    advWeather := fun _ _ => .vNull, advSearch := fun _ _ => .vNull,
    advSummary := fun _ _ => .vNull, rewriteModel := .error "down" }

/-- C6 counterexample: starting from an empty mapping, a run whose only
executed action is `do_nothing` ends with the mapping holding the key
`action_1` — the pass did add a key, contradicting the claim that the mapping
is left unchanged. -/
theorem C6_counterexample :
    (react_agent envC6 "hi").intermediate_results = some [("action_1", do_nothing "t")] ∧
      (react_agent envC6 "hi").intermediate_results ≠ some ([] : JDict) := by
  constructor
  · rfl
  · intro hcontra
    rw [show (react_agent envC6 "hi").intermediate_results =
      some [("action_1", do_nothing "t")] from rfl] at hcontra
    simp at hcontra

/-- Concrete pass exercising `C6_do_nothing_pass_adds_key`. -/
theorem C6_do_nothing_pass_adds_key_witness :
    ∃ s', runPass envC6 (initialStateFor "hi") = .proceed s' ∧
      s'.finished = (initialStateFor "hi").finished ∧
      s'.error = (initialStateFor "hi").error ∧
      s'.intermediate_results =
        dictSet (initialStateFor "hi").intermediate_results
          ("action_" ++ toString ((initialStateFor "hi").iteration + 1)) (do_nothing "t") :=
  C6_do_nothing_pass_adds_key envC6 (initialStateFor "hi")
    [("action", .vObj c6Action), ("should_continue", .vBool true)] c6Action "t"
    rfl rfl rfl rfl rfl rfl (fun _ => rfl)

/-- C8 amended: a missing or falsy `action` field (absent key, `null`, empty
object/list/string) takes the do-nothing path — no action or observation entry
is appended, the status stays `thinking`, and the loop proceeds normally.
(A truthy malformed action instead aborts the run: see the counterexample.) -/
theorem C8_falsy_action_skips_action (env : Env) (s : AgentState) (fs : JDict)
    (horacle : env.oracle (s.iteration + 1) = .ok (.vObj fs))
    (hfalsy : truthy ((dictGet? "action" fs).getD .vNull) = false)
    (hsc : truthy ((dictGet? "should_continue" fs).getD (.vBool true)) = true) :
    ∃ s', runPass env s = .proceed s' ∧ s'.finished = s.finished ∧ s'.error = s.error ∧
      s'.status = "thinking" ∧
      observationsOf s'.history = observationsOf s.history ∧
      s'.history.filter (fun st => st.type == "action") =
        s.history.filter (fun st => st.type == "action") := by
  unfold runPass passCore reasoning_step actionPhase
  dsimp only
  rw [horacle]
  dsimp only
  simp only [AgentState.add_to_history, Option.getD_some]
  simp [hsc, hfalsy]
  split
  · exact ⟨rfl, rfl, rfl, by simp [observationsOf, List.filter_append],
      by simp [List.filter_append]⟩
  · exact ⟨rfl, rfl, rfl, by simp [observationsOf, List.filter_append],
      by simp [List.filter_append]⟩

/-- Environment whose model returns a truthy but malformed action value: the
JSON string `"search_action"` instead of a `name`/`parameters` object. -/
def envC8 : Env :=
  { oracle := fun _ =>
      .ok (.vObj [("action", .vStr "search_action"), ("should_continue", .vBool true)]),
    exec := fun _ _ _ => .returned .vNull,
    advWeather := fun _ _ => .vNull, advSearch := fun _ _ => .vNull,
    advSummary := fun _ _ => .vNull, rewriteModel := .ok "" }

/-- C8 counterexample: a malformed-but-parseable response whose `action` field
is the truthy string `"search_action"` does NOT take the do-nothing path — the
raw `['name']` indexing at react_agent.py line 253 raises, the top-level
handler catches it, and the run aborts with status `error` and
`success = false` after one iteration. -/
theorem C8_counterexample :
    (react_agent envC8 "hi").status = "error" ∧
      (react_agent envC8 "hi").success = false ∧
      (react_agent envC8 "hi").total_iterations = 1 :=
  ⟨rfl, rfl, rfl⟩

/-- Environment whose model omits the `action` key while asking to continue. -/
def envC8f : Env :=
  { oracle := fun _ => .ok (.vObj [("should_continue", .vBool true), ("thought", .vStr "hm")]),
    exec := fun _ _ _ => .returned .vNull,
    advWeather := fun _ _ => .vNull, advSearch := fun _ _ => .vNull,
    advSummary := fun _ _ => .vNull, rewriteModel := .ok "" }

/-- Concrete pass exercising `C8_falsy_action_skips_action`. -/
theorem C8_falsy_action_skips_action_witness :
    ∃ s', runPass envC8f (initialStateFor "x") = .proceed s' ∧
      s'.finished = (initialStateFor "x").finished ∧
      s'.error = (initialStateFor "x").error ∧
      s'.status = "thinking" ∧
      observationsOf s'.history = observationsOf (initialStateFor "x").history ∧
      s'.history.filter (fun st => st.type == "action") =
        (initialStateFor "x").history.filter (fun st => st.type == "action") :=
  C8_falsy_action_skips_action envC8f (initialStateFor "x")
    [("should_continue", .vBool true), ("thought", .vStr "hm")] rfl rfl rfl

/-- The weather record returned by `extract_weather_data("Hanoi")` in the C7
scenario (shape of tools.py lines 134-140). -/
def c7Weather1 : JVal :=
  .vObj [("success", .vBool true), ("location", .vStr "Hanoi"),
         ("weather_data", .vList [.vObj [("source", .vStr "s"),
           ("information", .vStr "25°C"), ("link", .vStr "l")]]),
         ("search_query", .vStr "thời tiết Hanoi hôm nay"), ("timestamp", .vStr "t1")]

/-- The weather record the keyword side path obtains for the regex-extracted
location `"hanoi today"` in the C7 scenario. -/
def c7Weather2 : JVal :=
  .vObj [("success", .vBool true), ("location", .vStr "hanoi today"),
         ("weather_data", .vList []),
         ("search_query", .vStr "thời tiết hanoi today hôm nay"), ("timestamp", .vStr "t2")]

/-- Environment of the C7 scenario: pass 1 requests
`extract_weather_data(location="Hanoi")` with `should_continue = true`,
pass 2 stops with a final answer. -/
def envC7 : Env :=
  { oracle := fun n =>
      if n = 1 then
        .ok (.vObj [("action", .vObj [("name", .vStr "extract_weather_data"),
          ("parameters", .vObj [("location", .vStr "Hanoi")])]),
          ("should_continue", .vBool true)])
      else .ok (.vObj [("should_continue", .vBool false),
        ("final_answer", .vStr "Trời nắng.")]),
    exec := fun _ name _ =>
      if name = "extract_weather_data" then .returned c7Weather1 else .raised "?",
    advWeather := fun _ loc => if loc = "hanoi today" then c7Weather2 else .vNull,
    advSearch := fun _ _ => .vNull,
    advSummary := fun _ _ => .vNull, rewriteModel := .error "down" }

/-- C7 counterexample: the run does finish in 2 iterations with status
`finished`, but its intermediate-results mapping holds TWO entries, not
exactly one — the keyword side path on the input "weather in Hanoi today"
injects a second weather-extraction record under the key `advanced`
(react_agent.py lines 298-301). -/
theorem C7_counterexample :
    (react_agent envC7 "weather in Hanoi today").total_iterations = 2 ∧
      (react_agent envC7 "weather in Hanoi today").status = "finished" ∧
      ((react_agent envC7 "weather in Hanoi today").intermediate_results.getD []).length = 2 := by
  refine ⟨rfl, rfl, ?_⟩
  rfl

/-- C7 amended: the weather-example run yields `total_iterations = 2`, status
`finished`, and an intermediate-results mapping holding the weather-extraction
record keyed to iteration 1 (`action_1`) PLUS the second weather-extraction
record the keyword-triggered side path stores under `advanced`. -/
theorem C7_weather_example_two_records :
    (react_agent envC7 "weather in Hanoi today").total_iterations = 2 ∧
      (react_agent envC7 "weather in Hanoi today").status = "finished" ∧
      (react_agent envC7 "weather in Hanoi today").intermediate_results =
        some [("action_1", c7Weather1), ("advanced", c7Weather2)] :=
  ⟨rfl, rfl, rfl⟩

/-- C9: the final-response rewriter is invoked at most once per run, and on a
successful finish (status `finished`, truthy draft answer) whose rewrite model
call fails, the result record's final answer is exactly the draft answer the
loop produced, unchanged (fail-open, gemini_client.py lines 225-227). -/
theorem C9_rewrite_fail_open (env : Env) (user_input : String) (s : AgentState) (e : String)
    (hdraft : draftState env user_input = some s)
    (hstatus : s.status = "finished")
    (hfa : truthy s.final_answer = true)
    (hfail : env.rewriteModel = .error e) :
    rewriterCalls env user_input ≤ 1 ∧
      (react_agent env user_input).final_answer = some s.final_answer := by
  constructor
  · unfold rewriterCalls
    cases loopOutcome env user_input with
    | raised s0 e0 => simp
    | normal s0 =>
        dsimp only
        split <;> omega
  · unfold draftState at hdraft
    unfold react_agent
    cases hlo : loopOutcome env user_input with
    | raised s0 e0 => rw [hlo] at hdraft; simp at hdraft
    | normal s0 =>
        rw [hlo] at hdraft
        simp only [Option.some.injEq] at hdraft
        dsimp only
        rw [hdraft]
        unfold applyRewrite generate_final_response
        rw [hfail]
        simp [hstatus, hfa]

/-- Environment of the C9 scenario: the model stops immediately with a final
answer, and the final-response model call fails. -/
def envC9 : Env :=
  { oracle := fun _ =>
      .ok (.vObj [("should_continue", .vBool false), ("final_answer", .vStr "ans")]),
    exec := fun _ _ _ => .returned .vNull,
    advWeather := fun _ _ => .vNull, advSearch := fun _ _ => .vNull,
    advSummary := fun _ _ => .vNull, rewriteModel := .error "down" }

/-- Concrete run exercising `C9_rewrite_fail_open`. -/
theorem C9_rewrite_fail_open_witness :
    rewriterCalls envC9 "hello" ≤ 1 ∧
      (react_agent envC9 "hello").final_answer =
        some ((draftState envC9 "hello").getD initialState).final_answer :=
  C9_rewrite_fail_open envC9 "hello" ((draftState envC9 "hello").getD initialState) "down"
    rfl rfl rfl rfl

/-- Length of a string built from a character list. -/
theorem string_mk_length (l : List Char) : (String.mk l).length = l.length := rfl

/-- A string's length equals the length of its character list. -/
theorem string_toList_length (s : String) : s.toList.length = s.length := rfl

/-- Python slicing never yields more than `n` characters. -/
theorem pySlice_length_le (n : Nat) (s : String) : (pySlice n s).length ≤ n := by
  unfold pySlice
  rw [string_mk_length]
  exact List.length_take_le n s.toList

/-- Python slicing yields exactly `n` characters when the string is longer. -/
theorem pySlice_length_of_le (n : Nat) (s : String) (h : n ≤ s.length) :
    (pySlice n s).length = n := by
  unfold pySlice
  rw [string_mk_length, List.length_take, string_toList_length]
  omega

/-- The snippet truncation keeps at most 100 characters of the original and
appends at most a three-character ellipsis. -/
theorem truncSnippet_spec (s : String) :
    (truncSnippet s).length ≤ 103 ∧
      ((truncSnippet s).length ≤ 100 ∨
        ∃ u, truncSnippet s = u ++ "..." ∧ u.length = 100) := by
  unfold truncSnippet
  split
  · rename_i h
    have h100 : (pySlice 100 s).length = 100 := pySlice_length_of_le 100 s (by omega)
    constructor
    · rw [String.length_append, h100]
      decide
    · right
      exact ⟨pySlice 100 s, rfl, h100⟩
  · rename_i h
    constructor
    · omega
    · left
      omega

/-- The `answer_question` source collection never keeps more entries than it
scanned. -/
theorem extractPicked_length (l : List JVal) :
    ∀ p, extractPicked l = some p → p.length ≤ l.length := by
  induction l with
  | nil =>
      intro p h
      simp only [extractPicked, Option.some.injEq] at h
      simp [← h]
  | cons v rest ih =>
      intro p h
      cases v with
      | vObj fs =>
          unfold extractPicked at h
          cases hsn : dictGet? "snippet" fs with
          | none =>
              rw [hsn] at h
              have := ih p h
              simp only [List.length_cons]
              omega
          | some w =>
              rw [hsn] at h
              dsimp only at h
              by_cases ht : truthy w = true
              · rw [if_pos ht] at h
                cases w with
                | vStr s0 =>
                    cases hrest : extractPicked rest with
                    | none => rw [hrest] at h; simp at h
                    | some q =>
                        have hq := ih q hrest
                        rw [hrest] at h
                        simp only [Option.map_some', Option.some.injEq] at h
                        subst h
                        simp only [List.length_cons]
                        omega
                | vNull => simp at h
                | vBool b => simp at h
                | vInt n => simp at h
                | vList xs => simp at h
                | vObj gs => simp at h
              · rw [if_neg ht] at h
                have := ih p h
                simp only [List.length_cons]
                omega
      | vNull => simp [extractPicked] at h
      | vBool b => simp [extractPicked] at h
      | vInt n => simp [extractPicked] at h
      | vStr s0 => simp [extractPicked] at h
      | vList xs => simp [extractPicked] at h

/-- C10: for a non-empty, well-formed search-result list, `answer_question`
builds its sources only from the first five results (the call cannot see
beyond `search_results[:5]`), `total_sources` equals the number of collected
sources and is at most 5, and each source's snippet is the original snippet
when at most 100 characters or its first 100 characters plus a
three-character ellipsis otherwise (so at most 103 characters). -/
theorem C10_answer_sources_bounded (question current_date ts : String)
    (results : List JVal) (picked : List (JDict × String))
    (hne : results ≠ [])
    (hok : extractPicked (results.take 5) = some picked) :
    answer_question question results current_date ts =
      answer_question question (results.take 5) current_date ts ∧
    jGetD (answer_question question results current_date ts) "sources" .vNull =
      .vList (picked.map mkSource) ∧
    jGetD (answer_question question results current_date ts) "total_sources" .vNull =
      .vInt ((picked.map mkSource).length : Int) ∧
    (picked.map mkSource).length ≤ 5 ∧
    (∀ src ∈ picked.map mkSource, ∃ t : String,
      jGetD src "snippet" .vNull = .vStr t ∧ t.length ≤ 103 ∧
        (t.length ≤ 100 ∨ ∃ u, t = u ++ "..." ∧ u.length = 100)) := by
  have hE : results.isEmpty = false := by
    cases results with
    | nil => exact absurd rfl hne
    | cons a l => rfl
  have hE5 : (results.take 5).isEmpty = false := by
    cases results with
    | nil => exact absurd rfl hne
    | cons a l => rfl
  have hlen5 : picked.length ≤ 5 := by
    have h1 := extractPicked_length (results.take 5) picked hok
    have h2 : (results.take 5).length ≤ 5 := List.length_take_le 5 results
    omega
  refine ⟨?_, ?_, ?_, ?_, ?_⟩
  · unfold answer_question
    simp only [hE, hE5, Bool.false_eq_true, if_false]
    rw [List.take_take]
    norm_num
  · unfold answer_question
    simp only [hE, Bool.false_eq_true, if_false]
    rw [hok]
    simp [jGetD, dictGet?]
  · unfold answer_question
    simp only [hE, Bool.false_eq_true, if_false]
    rw [hok]
    simp [jGetD, dictGet?]
  · simpa using hlen5
  · intro src hsrc
    rcases List.mem_map.mp hsrc with ⟨p, hp, hmk⟩
    subst hmk
    refine ⟨truncSnippet p.2, ?_, (truncSnippet_spec p.2).1, (truncSnippet_spec p.2).2⟩
    simp [mkSource, jGetD, dictGet?]

/-- A 150-character snippet, longer than the truncation threshold. -/
def c10LongSnippet : String := String.mk (List.replicate 150 'a')

/-- First search result of the C10 scenario: full fields, long snippet. -/
def c10r1 : JDict :=
  [("title", .vStr "T1"), ("link", .vStr "L1"), ("snippet", .vStr c10LongSnippet)]

/-- Second search result of the C10 scenario: short snippet, no link key. -/
def c10r2 : JDict := [("snippet", .vStr "short"), ("title", .vStr "T2")]

/-- The search-result list of the C10 scenario. -/
def c10Results : List JVal := [.vObj c10r1, .vObj c10r2]

/-- What the source-collection loop picks from `c10Results`. -/
def c10Picked : List (JDict × String) := [(c10r1, c10LongSnippet), (c10r2, "short")]

/-- Concrete call exercising `C10_answer_sources_bounded`. -/
theorem C10_answer_sources_bounded_witness :
    (c10Results ≠ [] ∧ extractPicked (c10Results.take 5) = some c10Picked) ∧
    (answer_question "q" c10Results "d" "t" =
        answer_question "q" (c10Results.take 5) "d" "t" ∧
      jGetD (answer_question "q" c10Results "d" "t") "sources" .vNull =
        .vList (c10Picked.map mkSource) ∧
      jGetD (answer_question "q" c10Results "d" "t") "total_sources" .vNull =
        .vInt ((c10Picked.map mkSource).length : Int) ∧
      (c10Picked.map mkSource).length ≤ 5 ∧
      (∀ src ∈ c10Picked.map mkSource, ∃ t : String,
        jGetD src "snippet" .vNull = .vStr t ∧ t.length ≤ 103 ∧
          (t.length ≤ 100 ∨ ∃ u, t = u ++ "..." ∧ u.length = 100))) :=
  ⟨⟨by simp [c10Results], rfl⟩,
    C10_answer_sources_bounded "q" "d" "t" c10Results c10Picked (by simp [c10Results]) rfl⟩
